import Mathlib

/-!
Shallow embedding of the `cosmetics` repository (Flask REST API in
`src/app.py` plus the extraction script `src/extract_data.py`), with
theorems settling the specification claims about it.

Modelling conventions:
* Python's in-memory dict `active_tokens : {token: expiry_timestamp}` is an
  association list `List (String × Nat)`; dict lookup is `List.lookup`,
  `del` is `List.filter` on the key, and assignment preserves insertion
  order (overwrite in place, append for a fresh key).
* `time.time()` instants are modelled as `Nat` time stamps.
* Python string operations that the code uses (`startswith`, `split(" ")`,
  `int(...)`) are modelled character-exactly over `String.data`, because
  Lean's built-in counterparts do not reduce in the kernel.
* SQL execution is modelled relationally: a table is a `List` of row
  records; `WHERE` is `List.filter`, `ORDER BY brand, name` is a stable
  sort by the lexicographic character-code key, `LIMIT`/`OFFSET` are
  `take`/`drop` after sorting.
-/

/-! ### Python-style string primitives -/

/-- Model of Python `int(s)` for a plain string: optional sign followed by
decimal digits (whitespace/underscore forms are out of scope). Returns
`none` where Python `int()` raises `ValueError`. -/
def digitsToNat? (cs : List Char) : Option Nat :=
  if cs = [] then none
  else if cs.all (fun c => c.isDigit) then
    some (cs.foldl (fun acc c => acc * 10 + (c.toNat - 48)) 0)
  else none

/-- Python `int(s)` on strings, as used by `int(request.args.get(...))`. -/
def pyInt? (s : String) : Option Int :=
  match s.data with
  | '-' :: rest => (digitsToNat? rest).map (fun n => -(n : Int))
  | '+' :: rest => (digitsToNat? rest).map (fun n => (n : Int))
  | cs => (digitsToNat? cs).map (fun n => (n : Int))

/-- Python `s.split(" ")` helper on the character list: split at every
single space character. -/
def splitChars : List Char → List (List Char)
  | [] => [[]]
  | c :: rest =>
    match splitChars rest with
    | [] => [[]]
    | g :: gs => if c = ' ' then [] :: g :: gs else (c :: g) :: gs

/-- Python `s.split(" ")`. -/
def pySplitSpace (s : String) : List String :=
  (splitChars s.data).map (fun cs => String.mk cs)

/-- Python `s.startswith(pre)`. -/
def pyStartsWith (s pre : String) : Bool :=
  pre.data.isPrefixOf s.data

/-! ### Token store and authentication middleware (`src/app.py` 62–95) -/

/-- `active_tokens` : in-memory mapping from token string to expiry
instant (`{token: expiry_timestamp}`). -/
abbrev TokenStore := List (String × Nat)

/-- Python dict assignment `active_tokens[token] = expiry`: overwrite in
place when the key exists, append otherwise (insertion order kept). -/
def storeSet (store : TokenStore) (t : String) (e : Nat) : TokenStore :=
  if (store.lookup t).isSome then
    store.map (fun p => if p.1 = t then (t, e) else p)
  else store ++ [(t, e)]

/-- Outcome of the auth gate, mirroring the three 401 branches of
`require_auth` plus the pass-through case. -/
inductive AuthResult where
  | ok
  | missingOrMalformed
  | unknown
  | expired
deriving DecidableEq, Repr

/-- HTTP status produced by the gate: `none` means the request passes
through to the wrapped handler; each error branch returns 401. -/
def authHttpStatus : AuthResult → Option Nat
  | AuthResult.ok => none
  | _ => some 401

/-- Token-level validity check of `require_auth` (`src/app.py` 86–94):
unknown if the token is not in the store; if `time.time() >
active_tokens[token]` the entry is deleted and the result is `expired`;
otherwise the request proceeds. -/
def authenticate (store : TokenStore) (token : String) (now : Nat) :
    AuthResult × TokenStore :=
  match store.lookup token with
  | none => (AuthResult.unknown, store)
  | some expiry =>
    if expiry < now then
      (AuthResult.expired, store.filter (fun p => p.1 != token))
    else
      (AuthResult.ok, store)

/-- Token extraction `auth_header.split(" ")[1]` (`src/app.py` 83); the
index is always in range on headers that pass the `Bearer ` prefix
check. -/
def bearerToken (auth_header : String) : String :=
  (pySplitSpace auth_header).getD 1 ""

/-- The `require_auth` decorator body (`src/app.py` 76–94): checks the
`Authorization` header format `Bearer <token>`, extracts the token with
`auth_header.split(" ")[1]`, then validates it against the store. -/
def require_auth (store : TokenStore) (auth_header : String) (now : Nat) :
    AuthResult × TokenStore :=
  if pyStartsWith auth_header "Bearer " then
    authenticate store (bearerToken auth_header) now
  else
    (AuthResult.missingOrMalformed, store)

/-- `POST /auth/token` handler (`src/app.py` 101–126). The request body is
`none` when `request.get_json(silent=True)` yields nothing; `if not data`
also treats an empty JSON object as missing. The freshly generated
`secrets.token_urlsafe(32)` value is passed in as `newToken`. Returns the
HTTP status and the updated store. -/
def get_token (store : TokenStore) (body : Option (List (String × String)))
    (apiUser apiPass newToken : String) (now ttl : Nat) : Nat × TokenStore :=
  match body with
  | none => (400, store)
  | some data =>
    if data.isEmpty then (400, store)
    else
      let username := (data.lookup "username").getD ""
      let password := (data.lookup "password").getD ""
      if username ≠ apiUser ∨ password ≠ apiPass then (401, store)
      else (200, storeSet store newToken (now + ttl))

/-! ### Lexicographic character-code order (model of MySQL `ORDER BY` on
two string columns ascending) -/

/-- Strict lexicographic order on character lists by code point. -/
def charsLtb : List Char → List Char → Bool
  | _, [] => false
  | [], _ :: _ => true
  | c :: cs, d :: ds =>
    if c.toNat < d.toNat then true
    else if d.toNat < c.toNat then false
    else charsLtb cs ds

/-- `ORDER BY key1 ASC, key2 ASC` comparison on (primary, secondary) sort
keys: strictly smaller primary key first, ties broken by the secondary
key (non-strictly). -/
def pairLeb (a b : List Char × List Char) : Bool :=
  if charsLtb a.1 b.1 then true
  else if charsLtb b.1 a.1 then false
  else !(charsLtb b.2 a.2)

theorem charsLtb_irrefl (l : List Char) : charsLtb l l = false := by
  induction l with
  | nil => rfl
  | cons c cs ih => simp [charsLtb, ih]

theorem charsLtb_trans {a b c : List Char} (hab : charsLtb a b = true)
    (hbc : charsLtb b c = true) : charsLtb a c = true := by
  induction a generalizing b c with
  | nil =>
    cases c with
    | nil => cases b <;> simp [charsLtb] at hab hbc
    | cons d ds => rfl
  | cons x xs ih =>
    cases b with
    | nil => simp [charsLtb] at hab
    | cons y ys =>
      cases c with
      | nil => simp [charsLtb] at hbc
      | cons z zs =>
        simp only [charsLtb] at hab hbc ⊢
        split at hab
        · rename_i hxy
          split at hbc
          · rename_i hyz
            simp [Nat.lt_trans hxy hyz]
          · split at hbc
            · simp at hbc
            · rename_i hzy hyz
              have hyz' : y.toNat = z.toNat := Nat.le_antisymm
                (Nat.le_of_not_lt hyz) (Nat.le_of_not_lt hzy)
              simp [hyz' ▸ hxy]
        · split at hab
          · simp at hab
          · rename_i hyx hxy
            have hxy' : x.toNat = y.toNat := Nat.le_antisymm
              (Nat.le_of_not_lt hxy) (Nat.le_of_not_lt hyx)
            split at hbc
            · rename_i hyz
              simp [hxy' ▸ hyz]
            · split at hbc
              · simp at hbc
              · rename_i hzy hyz
                have hyz' : y.toNat = z.toNat := Nat.le_antisymm
                  (Nat.le_of_not_lt hyz) (Nat.le_of_not_lt hzy)
                simp only [hxy', hyz', Nat.lt_irrefl, if_false]
                exact ih hab hbc

theorem charsLtb_asymm {a b : List Char} (hab : charsLtb a b = true) :
    charsLtb b a = false := by
  by_contra h
  have hba : charsLtb b a = true := by
    cases hx : charsLtb b a with
    | false => exact absurd hx h
    | true => rfl
  have := charsLtb_trans hab hba
  rw [charsLtb_irrefl] at this
  exact Bool.false_ne_true this


theorem eq_of_charsLtb_false {a b : List Char}
    (hab : charsLtb a b = false) (hba : charsLtb b a = false) : a = b := by
  induction a generalizing b with
  | nil => cases b <;> simp_all [charsLtb]
  | cons x xs ih =>
    cases b with
    | nil => simp [charsLtb] at hba
    | cons y ys =>
      simp only [charsLtb] at hab hba
      split at hab
      · simp at hab
      · split at hab
        · rename_i hyx
          simp [Nat.lt_asymm hyx, hyx] at hba
        · rename_i hyx hxy
          have hx : x.toNat = y.toNat := Nat.le_antisymm
            (Nat.le_of_not_lt hxy) (Nat.le_of_not_lt hyx)
          have hx' : x = y := Char.ext (UInt32.toNat.inj hx)
          rw [if_neg (hx ▸ hyx), if_neg (hx ▸ hxy)] at hba
          rw [hx', ih hab hba]

theorem charsLtb_false_trans {a b c : List Char}
    (hab : charsLtb a b = false) (hbc : charsLtb b c = false) :
    charsLtb a c = false := by
  by_contra hac'
  have hac : charsLtb a c = true := by
    cases hx : charsLtb a c with
    | false => exact absurd hx hac'
    | true => rfl
  cases hcb : charsLtb c b with
  | true =>
    have := charsLtb_trans hac hcb
    rw [this] at hab
    simp at hab
  | false =>
    have hbc' : b = c := eq_of_charsLtb_false hbc hcb
    rw [← hbc'] at hac
    rw [hac] at hab
    simp at hab

theorem pairLeb_iff (a b : List Char × List Char) :
    pairLeb a b = true ↔
      (charsLtb a.1 b.1 = true ∨
        (a.1 = b.1 ∧ charsLtb b.2 a.2 = false)) := by
  unfold pairLeb
  cases h1 : charsLtb a.1 b.1 with
  | true => simp
  | false =>
    cases h2 : charsLtb b.1 a.1 with
    | true =>
      simp only [if_neg (by simp : ¬ (false = true)), if_pos rfl]
      constructor
      · intro h
        exact absurd h (by simp)
      · rintro (h | ⟨he, _⟩)
        · simp at h
        · rw [he, charsLtb_irrefl] at h2
          simp at h2
    | false =>
      have he : a.1 = b.1 := eq_of_charsLtb_false h1 h2
      simp [he, Bool.not_eq_true']

theorem pairLeb_total (a b : List Char × List Char) :
    pairLeb a b = true ∨ pairLeb b a = true := by
  cases h1 : charsLtb a.1 b.1 with
  | true => exact Or.inl ((pairLeb_iff a b).mpr (Or.inl h1))
  | false =>
    cases h2 : charsLtb b.1 a.1 with
    | true => exact Or.inr ((pairLeb_iff b a).mpr (Or.inl h2))
    | false =>
      have he : a.1 = b.1 := eq_of_charsLtb_false h1 h2
      cases h3 : charsLtb b.2 a.2 with
      | false => exact Or.inl ((pairLeb_iff a b).mpr (Or.inr ⟨he, h3⟩))
      | true =>
        exact Or.inr ((pairLeb_iff b a).mpr
          (Or.inr ⟨he.symm, charsLtb_asymm h3⟩))

theorem pairLeb_trans {a b c : List Char × List Char}
    (hab : pairLeb a b = true) (hbc : pairLeb b c = true) :
    pairLeb a c = true := by
  rw [pairLeb_iff] at hab hbc ⊢
  rcases hab with h1 | ⟨e1, h1⟩
  · rcases hbc with h2 | ⟨e2, _⟩
    · exact Or.inl (charsLtb_trans h1 h2)
    · exact Or.inl (e2 ▸ h1)
  · rcases hbc with h2 | ⟨e2, h2⟩
    · exact Or.inl (e1 ▸ h2)
    · exact Or.inr ⟨e1.trans e2, charsLtb_false_trans h2 h1⟩

/-- Row order used by the `ORDER BY` model: compare the sort key extracted
from a row, lexicographically by character codes. -/
def rowLe {α : Type} (key : α → List Char × List Char) (r s : α) : Prop :=
  pairLeb (key r) (key s) = true

instance rowLeDecidable {α : Type} (key : α → List Char × List Char) :
    DecidableRel (rowLe key) :=
  fun _ _ => inferInstanceAs (Decidable (_ = true))

instance rowLeTotal {α : Type} (key : α → List Char × List Char) :
    IsTotal α (rowLe key) :=
  ⟨fun a b => pairLeb_total (key a) (key b)⟩

instance rowLeTrans {α : Type} (key : α → List Char × List Char) :
    IsTrans α (rowLe key) :=
  ⟨fun _ _ _ hab hbc => pairLeb_trans hab hbc⟩

/-! ### Product rows and query building (`src/app.py` 132–309) -/

/-- Row of the `sephora_products` table, with the columns selected by the
API (`src/app.py` 151–153). Numeric columns are modelled as `Int`. -/
structure SephoraRow where
  product_id : String
  product_name : String
  brand_name : String
  product_type : String
  price_usd : Int
  rating : Int
  restricted_ingredient_count : Int
  cmr_count : Int
  has_restricted_ingredient : Bool
  has_cmr : Bool
deriving DecidableEq, Repr

/-- Row of the `skincare_products` table, with the columns selected by the
API (`src/app.py` 282–284). -/
structure SkincareRow where
  brand : String
  product_name : String
  product_type : String
  price : Int
  rating : Int
  restricted_ingredient_count : Int
  cmr_count : Int
  has_restricted_ingredient : Bool
  has_cmr : Bool
deriving DecidableEq, Repr

/-- Query-string arguments of the two list endpoints: each is `none` when
the parameter is absent from the request, `some s` when supplied (Flask's
`request.args.get(name, None)`). -/
structure ListArgs where
  limit : Option String
  offset : Option String
  product_type : Option String
  brand : Option String
deriving DecidableEq, Repr

/-- Python truthiness of an optional string (`if product_type:` /
`if brand:`): `None` and the empty string are falsy. -/
def optTruthy : Option String → Bool
  | none => false
  | some s => s != ""

/-- A value bound to a named SQL parameter. -/
inductive SqlParam where
  | str (s : String)
  | int (i : Int)
deriving DecidableEq, Repr

/-- Base `SELECT` of `/api/sephora/products` (`src/app.py` 150–156),
whitespace normalized to single spaces. -/
def sephoraBaseQuery : String :=
  "SELECT product_id, product_name, brand_name, product_type, price_usd, rating, restricted_ingredient_count, cmr_count, has_restricted_ingredient, has_cmr FROM sephora_products WHERE 1=1"

/-- Base `SELECT` of `/api/skincare/products` (`src/app.py` 281–287). -/
def skincareBaseQuery : String :=
  "SELECT brand, product_name, product_type, price, rating, restricted_ingredient_count, cmr_count, has_restricted_ingredient, has_cmr FROM skincare_products WHERE 1=1"

/-- Trailing `ORDER BY`/`LIMIT`/`OFFSET` of `/api/sephora/products`
(`src/app.py` 167). -/
def sephoraTailQuery : String :=
  " ORDER BY brand_name ASC, product_name ASC LIMIT :limit OFFSET :offset"

/-- Trailing `ORDER BY`/`LIMIT`/`OFFSET` of `/api/skincare/products`
(`src/app.py` 298). -/
def skincareTailQuery : String :=
  " ORDER BY brand ASC, product_name ASC LIMIT :limit OFFSET :offset"

/-- Dynamic query construction of `get_sephora_products` (`src/app.py`
150–169): start from the base query and empty parameter dict, append one
clause and bind one parameter per truthy filter, then append ordering and
pagination. -/
def buildSephoraQuery (product_type brand : Option String)
    (limit offset : Int) : String × List (String × SqlParam) :=
  let query := sephoraBaseQuery
  let params : List (String × SqlParam) := []
  let (query, params) :=
    if optTruthy product_type then
      (query ++ " AND product_type = :product_type",
       params ++ [("product_type", SqlParam.str (product_type.getD ""))])
    else (query, params)
  let (query, params) :=
    if optTruthy brand then
      (query ++ " AND brand_name LIKE :brand",
       params ++ [("brand", SqlParam.str ("%" ++ brand.getD "" ++ "%"))])
    else (query, params)
  (query ++ sephoraTailQuery,
   params ++ [("limit", SqlParam.int limit), ("offset", SqlParam.int offset)])

/-- Dynamic query construction of `get_skincare_products` (`src/app.py`
281–300); the brand filter targets the `brand` column here. -/
def buildSkincareQuery (product_type brand : Option String)
    (limit offset : Int) : String × List (String × SqlParam) :=
  let query := skincareBaseQuery
  let params : List (String × SqlParam) := []
  let (query, params) :=
    if optTruthy product_type then
      (query ++ " AND product_type = :product_type",
       params ++ [("product_type", SqlParam.str (product_type.getD ""))])
    else (query, params)
  let (query, params) :=
    if optTruthy brand then
      (query ++ " AND brand LIKE :brand",
       params ++ [("brand", SqlParam.str ("%" ++ brand.getD "" ++ "%"))])
    else (query, params)
  (query ++ skincareTailQuery,
   params ++ [("limit", SqlParam.int limit), ("offset", SqlParam.int offset)])

/-! ### Relational execution model of the built queries -/

/-- Case-folding to lower case on code points (ASCII letters), used to
model MySQL's case-insensitive `LIKE` comparison. -/
def foldCode (c : Char) : Nat :=
  if 65 ≤ c.toNat ∧ c.toNat ≤ 90 then c.toNat + 32 else c.toNat

/-- Model of SQL `col LIKE '%pat%'` under a case-insensitive collation:
the pattern occurs as a contiguous substring, ignoring letter case. -/
def likeContains (s pat : String) : Bool :=
  decide ((pat.data.map foldCode) <:+: (s.data.map foldCode))

/-- `WHERE` predicate of the sephora products query: an equality
constraint per truthy type filter, a substring constraint per truthy
brand filter, no constraint otherwise (`WHERE 1=1`). -/
def matchesSephora (product_type brand : Option String)
    (r : SephoraRow) : Bool :=
  (if optTruthy product_type then r.product_type == product_type.getD ""
   else true) &&
  (if optTruthy brand then likeContains r.brand_name (brand.getD "")
   else true)

/-- `WHERE` predicate of the skincare products query. -/
def matchesSkincare (product_type brand : Option String)
    (r : SkincareRow) : Bool :=
  (if optTruthy product_type then r.product_type == product_type.getD ""
   else true) &&
  (if optTruthy brand then likeContains r.brand (brand.getD "")
   else true)

/-- Sort key of `ORDER BY brand_name ASC, product_name ASC`. -/
def sephoraKey (r : SephoraRow) : List Char × List Char :=
  (r.brand_name.data, r.product_name.data)

/-- Sort key of `ORDER BY brand ASC, product_name ASC`. -/
def skincareKey (r : SkincareRow) : List Char × List Char :=
  (r.brand.data, r.product_name.data)

/-- Execution of the built sephora query against a table state:
filter (`WHERE`), stable sort (`ORDER BY`), then `OFFSET`/`LIMIT`. -/
def runSephoraQuery (db : List SephoraRow)
    (product_type brand : Option String) (limit offset : Int) :
    List SephoraRow :=
  ((((db.filter (matchesSephora product_type brand)).insertionSort
      (rowLe sephoraKey)).drop offset.toNat).take limit.toNat)

/-- Execution of the built skincare query against a table state. -/
def runSkincareQuery (db : List SkincareRow)
    (product_type brand : Option String) (limit offset : Int) :
    List SkincareRow :=
  ((((db.filter (matchesSkincare product_type brand)).insertionSort
      (rowLe skincareKey)).drop offset.toNat).take limit.toNat)

/-! ### List-endpoint handlers (`src/app.py` 132–178 and 268–309) -/

/-- Result of a list handler: a 200 JSON body
`{data, count, limit, offset}`, or the catch-all
`except Exception → jsonify({"error": str(e)}), 500` branch. -/
inductive ListOutcome (ρ : Type) where
  | ok (rows : List ρ) (count : Nat) (limit offset : Int)
  | serverError (msg : String)
deriving DecidableEq, Repr

/-- HTTP status of a list-handler outcome. -/
def outcomeStatus {ρ : Type} : ListOutcome ρ → Nat
  | ListOutcome.ok _ _ _ _ => 200
  | ListOutcome.serverError _ => 500

/-- `int(request.args.get(name, default))`: the integer default is used
as-is when the parameter is absent; a supplied string must parse. -/
def pyIntArg (arg : Option String) (default : Int) : Option Int :=
  match arg with
  | none => some default
  | some s => pyInt? s

/-- Python's `ValueError` message for a failed `int(s)`. -/
def intErrorMsg (s : String) : String :=
  "invalid literal for int() with base 10: '" ++ s ++ "'"

/-- `GET /api/sephora/products` handler (`src/app.py` 143–178): parse
pagination (failures raise inside the `try` and surface as a 500), build
and run the filtered query, answer with rows, `len(rows)`, and the
effective pagination values. -/
def get_sephora_products (db : List SephoraRow) (args : ListArgs) :
    ListOutcome SephoraRow :=
  match pyIntArg args.limit 50 with
  | none => ListOutcome.serverError (intErrorMsg (args.limit.getD ""))
  | some limit =>
    match pyIntArg args.offset 0 with
    | none => ListOutcome.serverError (intErrorMsg (args.offset.getD ""))
    | some offset =>
      let rows := runSephoraQuery db args.product_type args.brand limit offset
      ListOutcome.ok rows rows.length limit offset

/-- `GET /api/skincare/products` handler (`src/app.py` 275–309). -/
def get_skincare_products (db : List SkincareRow) (args : ListArgs) :
    ListOutcome SkincareRow :=
  match pyIntArg args.limit 50 with
  | none => ListOutcome.serverError (intErrorMsg (args.limit.getD ""))
  | some limit =>
    match pyIntArg args.offset 0 with
    | none => ListOutcome.serverError (intErrorMsg (args.offset.getD ""))
    | some offset =>
      let rows := runSkincareQuery db args.product_type args.brand limit offset
      ListOutcome.ok rows rows.length limit offset

/-! ### Comparison endpoint category skeleton (`src/app.py` 349–390)

The claims about `/api/comparaison` concern which categories appear in
the joined output, so the model captures the `GROUP BY` /
`CASE WHEN` / `INNER JOIN` structure on the category column; the
per-category aggregates (counts, percentages, averages) do not affect
which categories survive the join. -/

/-- The fine-grained skincare categories listed in the `CASE WHEN`
(`src/app.py` 369 and 378). -/
def skincareFineCategories : List String :=
  ["Moisturizer", "Cleanser", "Treatment", "Eye Cream", "Face Mask",
   "Sun Protect"]

/-- The `CASE WHEN product_type IN (...) THEN 'Skincare' ELSE
product_type END` mapping. -/
def mapCategory (c : String) : String :=
  if c ∈ skincareFineCategories then "Skincare" else c

/-- Distinct categories of the sephora-side subquery
(`GROUP BY product_type`). -/
def sephoraTypeGroups (db : List SephoraRow) : List String :=
  (db.map (fun r => r.product_type)).dedup

/-- Distinct categories of the skincare-side subquery (`GROUP BY` the
`CASE WHEN` mapped category). -/
def skincareMappedGroups (db : List SkincareRow) : List String :=
  (db.map (fun r => mapCategory r.product_type)).dedup

/-- Categories present in the joined comparison output: the
`INNER JOIN ... ON s.product_type = sk.product_type` keeps exactly the
grouped categories present on both sides. -/
def comparisonCategories (dbS : List SephoraRow) (dbK : List SkincareRow) :
    List String :=
  (sephoraTypeGroups dbS).filter (fun c => c ∈ skincareMappedGroups dbK)

/-! ### Extraction script (`src/extract_data.py`) -/

/-- A product object from one page of the Open Beauty Facts JSON API,
with the fields the loop reads (`src/extract_data.py` 173–182); each
`product.get(key, "")` default is folded into the field value. -/
structure ObfProduct where
  product_name : String
  brands : String
  ingredients_text : String
  categories : String
  countries : String
  code : String
deriving DecidableEq, Repr

/-- A normalized record appended to `all_products`. -/
structure ApiRecord where
  product_name : String
  brand : String
  ingredients_text : String
  categories : String
  country : String
  barcode : String
  source : String
deriving DecidableEq, Repr

/-- The dict literal appended per product (`src/extract_data.py`
174–182). -/
def normalizeProduct (p : ObfProduct) : ApiRecord :=
  { product_name := p.product_name
    brand := p.brands
    ingredients_text := p.ingredients_text
    categories := p.categories
    country := p.countries
    barcode := p.code
    source := "open_beauty_facts_api" }

/-- Outcome of requesting one page inside the loop of `extract_from_api`:
a parsed product list (possibly empty), or one of the exception classes
the `except` clauses distinguish (`src/extract_data.py` 186–197). -/
inductive PageResult where
  | success (products : List ObfProduct)
  | timeout
  | httpError (msg : String)
  | requestError (msg : String)
  | parseError (msg : String)
deriving DecidableEq, Repr

/-- The pagination loop of `extract_from_api` (`src/extract_data.py`
147–201) over the outcomes of pages `1..max_pages`: an empty product
list breaks the loop; `Timeout`, `HTTPError`, and JSON parse errors are
logged and skipped (`continue`); a plain `RequestException` (fatal
connection failure) breaks; every product of a successful page is
normalized and accumulated. The accumulated records are always
returned. -/
def extract_from_api : List PageResult → List ApiRecord
  | [] => []
  | PageResult.success [] :: _ => []
  | PageResult.success ps :: rest =>
    ps.map normalizeProduct ++ extract_from_api rest
  | PageResult.timeout :: rest => extract_from_api rest
  | PageResult.httpError _ :: rest => extract_from_api rest
  | PageResult.requestError _ :: _ => []
  | PageResult.parseError _ :: rest => extract_from_api rest

/-- Whether a page outcome terminates the pagination loop. -/
def pageStops : PageResult → Bool
  | PageResult.success [] => true
  | PageResult.requestError _ => true
  | _ => false

/-- The records a non-terminating page outcome contributes. -/
def pageRecords : PageResult → List ApiRecord
  | PageResult.success ps => ps.map normalizeProduct
  | _ => []

/-- The raw-data directory (`RAW_DIR = BASE_DIR / "data" / "raw"`,
relative to the working directory). -/
def RAW_DIR : String := "data/raw"

/-- `save_raw` (`src/extract_data.py` 403–411): skip an empty frame with
a warning (`none` = no file written); otherwise write the frame to
`data/raw/{name}_{timestamp}.csv` (`some (path, rows)` = the performed
write). The rows are an abstract type: the helper is shared by all four
extraction sources. -/
def save_raw {ρ : Type} (name : String) (df : List ρ) (timestamp : String) :
    Option (String × List ρ) :=
  if df.isEmpty then none
  else some (RAW_DIR ++ "/" ++ name ++ "_" ++ timestamp ++ ".csv", df)

/-! ### Token-store lemmas -/

theorem lookup_append_of_none {α β : Type} [BEq α] {l1 l2 : List (α × β)}
    {a : α} (h : l1.lookup a = none) :
    (l1 ++ l2).lookup a = l2.lookup a := by
  induction l1 with
  | nil => simp
  | cons kv l1' ih =>
    obtain ⟨k, v⟩ := kv
    cases hk : a == k with
    | true => simp [List.lookup, hk] at h
    | false =>
      simp only [List.lookup, hk] at h
      simp only [List.cons_append, List.lookup, hk]
      exact ih h

theorem lookup_append_of_some {α β : Type} [BEq α] {l1 l2 : List (α × β)}
    {a : α} {v : β} (h : l1.lookup a = some v) :
    (l1 ++ l2).lookup a = some v := by
  induction l1 with
  | nil => simp [List.lookup] at h
  | cons kv l1' ih =>
    obtain ⟨k, w⟩ := kv
    cases hk : a == k with
    | true =>
      simp only [List.lookup, hk] at h
      simp only [List.cons_append, List.lookup, hk]
      exact h
    | false =>
      simp only [List.lookup, hk] at h
      simp only [List.cons_append, List.lookup, hk]
      exact ih h

theorem lookup_filter_self {l : TokenStore} {t : String} :
    (l.filter (fun p => p.1 != t)).lookup t = none := by
  induction l with
  | nil => rfl
  | cons kv l' ih =>
    obtain ⟨k, v⟩ := kv
    by_cases hk : k = t
    · simp [List.filter, hk, ih]
    · have hk2 : (t == k) = false := by
        simp [beq_eq_false_iff_ne]
        exact fun he => hk he.symm
      have hkeep : (k != t) = true := by
        simp [bne_iff_ne]
        exact hk
      simp [List.filter_cons, hkeep, List.lookup, hk2, ih]

theorem storeSet_fresh {store : TokenStore} {t : String} {e : Nat}
    (h : store.lookup t = none) : storeSet store t e = store ++ [(t, e)] := by
  simp [storeSet, h]

theorem get_token_success_store {store : TokenStore}
    {data : List (String × String)} {u p tok : String} {now0 ttl : Nat}
    (h200 : (get_token store (some data) u p tok now0 ttl).1 = 200) :
    (get_token store (some data) u p tok now0 ttl).2 =
      storeSet store tok (now0 + ttl) := by
  by_cases hemp : data.isEmpty
  · simp [get_token, hemp] at h200
  · by_cases hcred :
      ((data.lookup "username").getD "" ≠ u ∨
       (data.lookup "password").getD "" ≠ p)
    · simp [get_token, hemp, hcred] at h200
    · simp [get_token, hemp, hcred]

/-- C1: a token is accepted by `authenticate` iff it is present in the
token store and the current time is at most its stored expiry; and for a
token returned by a successful `POST /auth/token` issue call into a store
that did not already hold it, `authenticate` accepts it at every time up
to issuance time + TTL and rejects it strictly after that instant. -/
theorem token_validity_iff :
    (∀ (store : TokenStore) (token : String) (now : Nat),
      (authenticate store token now).1 = AuthResult.ok ↔
        ∃ e, store.lookup token = some e ∧ now ≤ e) ∧
    (∀ (store : TokenStore) (data : List (String × String))
       (u p tok : String) (now0 ttl : Nat),
      store.lookup tok = none →
      (get_token store (some data) u p tok now0 ttl).1 = 200 →
      ∀ t : Nat,
        ((authenticate (get_token store (some data) u p tok now0 ttl).2
            tok t).1 = AuthResult.ok ↔ t ≤ now0 + ttl)) := by
  constructor
  · intro store token now
    cases h : store.lookup token with
    | none => simp [authenticate, h]
    | some e =>
      by_cases hlt : e < now
      · simp only [authenticate, h, if_pos hlt]
        constructor
        · intro hc
          exact absurd hc (by simp)
        · rintro ⟨e', he', hle⟩
          injection he' with he''
          exact absurd hle (by omega)
      · simp only [authenticate, h, if_neg hlt]
        constructor
        · intro _
          exact ⟨e, rfl, Nat.le_of_not_lt hlt⟩
        · intro _
          trivial
  · intro store data u p tok now0 ttl hfresh h200 t
    have hstore := get_token_success_store h200
    rw [hstore, storeSet_fresh hfresh]
    have hl : ((store ++ [(tok, now0 + ttl)]).lookup tok) =
        some (now0 + ttl) := by
      rw [lookup_append_of_none hfresh]
      simp [List.lookup]
    by_cases hlt : now0 + ttl < t
    · simp only [authenticate, hl, if_pos hlt]
      constructor
      · intro hc
        exact absurd hc (by simp)
      · intro hle
        omega
    · simp only [authenticate, hl, if_neg hlt]
      constructor
      · intro _
        exact Nat.le_of_not_lt hlt
      · intro _
        trivial

/-- C1 witness: concrete instances of both conjuncts, including
acceptance exactly at the expiry instant and rejection one instant
later. -/
theorem token_validity_iff_witness :
    ((authenticate [("tok", 5)] "tok" 5).1 = AuthResult.ok) ∧
    ((authenticate (get_token []
        (some [("username", "admin"), ("password", "admin123")])
        "admin" "admin123" "t0" 10 3600).2 "t0" 3610).1 = AuthResult.ok) ∧
    ¬ ((authenticate (get_token []
        (some [("username", "admin"), ("password", "admin123")])
        "admin" "admin123" "t0" 10 3600).2 "t0" 3611).1 = AuthResult.ok) := by
  refine ⟨?_, ?_, ?_⟩
  · exact (token_validity_iff.1 [("tok", 5)] "tok" 5).mpr
      ⟨5, by decide, by decide⟩
  · exact (token_validity_iff.2 []
      [("username", "admin"), ("password", "admin123")]
      "admin" "admin123" "t0" 10 3600 (by decide) (by decide) 3610).mpr
      (by decide)
  · intro hok
    have := (token_validity_iff.2 []
      [("username", "admin"), ("password", "admin123")]
      "admin" "admin123" "t0" 10 3600 (by decide) (by decide) 3611).mp hok
    omega

/-- C2: once `require_auth` has evicted an expired token (answering the
`expired` 401 kind), every later request carrying the same header is
rejected with a 401 of the `unknown` kind, never accepted again, and the
store is left unchanged by those later attempts. -/
theorem expired_eviction_permanent :
    ∀ (store : TokenStore) (header : String) (now : Nat)
      (store' : TokenStore),
      require_auth store header now = (AuthResult.expired, store') →
      authHttpStatus AuthResult.expired = some 401 ∧
      ∀ now' : Nat,
        require_auth store' header now' = (AuthResult.unknown, store') ∧
        (require_auth store' header now').1 ≠ AuthResult.ok ∧
        authHttpStatus (require_auth store' header now').1 = some 401 := by
  intro store header now store' h
  by_cases hpre : pyStartsWith header "Bearer "
  · rw [require_auth, if_pos hpre] at h
    cases hl : store.lookup (bearerToken header) with
    | none => simp [authenticate, hl] at h
    | some e =>
      by_cases hlt : e < now
      · simp only [authenticate, hl, if_pos hlt] at h
        have hst : store' =
            store.filter (fun p => p.1 != bearerToken header) := by
          injection h with h1 h2
          exact h2.symm
        have hnone : store'.lookup (bearerToken header) = none := by
          rw [hst]
          exact lookup_filter_self
        refine ⟨rfl, fun now' => ?_⟩
        have hrun : require_auth store' header now' =
            (AuthResult.unknown, store') := by
          rw [require_auth, if_pos hpre]
          simp [authenticate, hnone]
        refine ⟨hrun, ?_, ?_⟩
        · rw [hrun]
          simp
        · rw [hrun]
          rfl
      · simp only [authenticate, hl, if_neg hlt] at h
        simp at h
  · rw [require_auth, if_neg hpre] at h
    simp at h

/-- C2 witness: a store holding one token expired at instant 5, queried
at instant 6; the theorem's conclusions instantiated at the evicted
store. -/
theorem expired_eviction_permanent_witness :
    require_auth ([] : TokenStore) "Bearer tok" 7 =
      (AuthResult.unknown, []) ∧
    authHttpStatus (require_auth ([] : TokenStore) "Bearer tok" 7).1 =
      some 401 := by
  have h := expired_eviction_permanent [("tok", 5)] "Bearer tok" 6 []
    (by decide)
  exact ⟨(h.2 7).1, (h.2 7).2.2⟩

/-- C9: a successful issue call appends exactly one entry — the freshly
generated token — to the store, leaving every previously stored token's
expiry unchanged; any non-200 outcome of `POST /auth/token` (missing or
falsy body, wrong credentials) leaves the store entirely unchanged. -/
theorem issue_store_frame :
    ∀ (store : TokenStore) (body : Option (List (String × String)))
      (u p tok : String) (now0 ttl : Nat),
      ((get_token store body u p tok now0 ttl).1 ≠ 200 →
        (get_token store body u p tok now0 ttl).2 = store) ∧
      (store.lookup tok = none →
        (get_token store body u p tok now0 ttl).1 = 200 →
        (get_token store body u p tok now0 ttl).2 =
            store ++ [(tok, now0 + ttl)] ∧
          (get_token store body u p tok now0 ttl).2.length =
            store.length + 1 ∧
          (get_token store body u p tok now0 ttl).2.lookup tok =
            some (now0 + ttl) ∧
          ∀ t' : String, t' ≠ tok →
            (get_token store body u p tok now0 ttl).2.lookup t' =
              store.lookup t') := by
  intro store body u p tok now0 ttl
  constructor
  · intro hne
    cases body with
    | none => rfl
    | some data =>
      by_cases hemp : data.isEmpty
      · simp [get_token, hemp]
      · by_cases hcred :
          ((data.lookup "username").getD "" ≠ u ∨
           (data.lookup "password").getD "" ≠ p)
        · simp [get_token, hemp, hcred]
        · exact absurd (by simp [get_token, hemp, hcred]) hne
  · intro hfresh h200
    cases body with
    | none => simp [get_token] at h200
    | some data =>
      have hstore := get_token_success_store h200
      rw [hstore, storeSet_fresh hfresh]
      refine ⟨rfl, by simp, ?_, ?_⟩
      · rw [lookup_append_of_none hfresh]
        simp [List.lookup]
      · intro t' hne
        cases hl : store.lookup t' with
        | some v => exact lookup_append_of_some hl
        | none =>
          rw [lookup_append_of_none hl]
          have : (t' == tok) = false := by
            simp [beq_eq_false_iff_ne]
            exact hne
          simp [List.lookup, this]

/-- C9 witness: a failed call (missing body) and a successful call on a
concrete store, with the theorem's conclusions instantiated. -/
theorem issue_store_frame_witness :
    (get_token [("a", 1)] none "u" "p" "t0" 0 5).2 = [("a", 1)] ∧
    (get_token [("a", 1)]
        (some [("username", "u"), ("password", "p")])
        "u" "p" "t0" 10 5).2 = [("a", 1), ("t0", 15)] := by
  constructor
  · exact (issue_store_frame [("a", 1)] none "u" "p" "t0" 0 5).1 (by decide)
  · exact ((issue_store_frame [("a", 1)]
      (some [("username", "u"), ("password", "p")])
      "u" "p" "t0" 10 5).2 (by decide) (by decide)).1

/-- Substring occurrence in a generated query string. -/
def occursIn (s pat : String) : Bool :=
  decide (pat.data <:+: s.data)

/-- C3 counterexample: a non-numeric `limit` on the sephora list endpoint
is answered by the catch-all `except Exception` branch with HTTP 500 — a
server error, not a response in the 4xx client-error class. -/
theorem nonnumeric_pagination_counterexample :
    outcomeStatus (get_sephora_products ([] : List SephoraRow)
      ⟨some "abc", none, none, none⟩) = 500 ∧
    ¬ (400 ≤ outcomeStatus (get_sephora_products ([] : List SephoraRow)
        ⟨some "abc", none, none, none⟩) ∧
       outcomeStatus (get_sephora_products ([] : List SephoraRow)
        ⟨some "abc", none, none, none⟩) < 500) := by
  constructor
  · rfl
  · decide

/-- C3 (amended): a non-numeric `limit` or `offset` on either list
endpoint is caught and answered with a structured 500 JSON error body
(no crash, but a server error rather than a 4xx client error); absent
pagination parameters default to limit 50 and offset 0. -/
theorem pagination_parse_behavior :
    ∀ (dbS : List SephoraRow) (dbK : List SkincareRow) (args : ListArgs),
      ((∃ s, (args.limit = some s ∨ args.offset = some s) ∧
          pyInt? s = none) →
        outcomeStatus (get_sephora_products dbS args) = 500 ∧
        outcomeStatus (get_skincare_products dbK args) = 500) ∧
      (args.limit = none → args.offset = none →
        get_sephora_products dbS args =
          ListOutcome.ok
            (runSephoraQuery dbS args.product_type args.brand 50 0)
            (runSephoraQuery dbS args.product_type args.brand 50 0).length
            50 0 ∧
        get_skincare_products dbK args =
          ListOutcome.ok
            (runSkincareQuery dbK args.product_type args.brand 50 0)
            (runSkincareQuery dbK args.product_type args.brand 50 0).length
            50 0) := by
  intro dbS dbK args
  obtain ⟨alim, aoff, apt, abr⟩ := args
  constructor
  · rintro ⟨s, hso, hbad⟩
    rcases hso with hl | ho
    · have hl' : alim = some s := hl
      subst hl'
      constructor <;> simp [get_sephora_products, get_skincare_products,
        pyIntArg, hbad, outcomeStatus]
    · have ho' : aoff = some s := ho
      subst ho'
      cases alim with
      | none =>
        constructor <;> simp [get_sephora_products,
          get_skincare_products, pyIntArg, hbad, outcomeStatus]
      | some ls =>
        cases hp : pyInt? ls with
        | none =>
          constructor <;> simp [get_sephora_products,
            get_skincare_products, pyIntArg, hp, outcomeStatus]
        | some l =>
          constructor <;> simp [get_sephora_products,
            get_skincare_products, pyIntArg, hp, hbad, outcomeStatus]
  · intro hl ho
    have hl' : alim = none := hl
    have ho' : aoff = none := ho
    subst hl'
    subst ho'
    constructor <;> simp [get_sephora_products, get_skincare_products,
      pyIntArg]

/-- C3 witness: the amended behavior on concrete requests — a
non-numeric limit gives 500, absent pagination gives the limit-50 /
offset-0 page. -/
theorem pagination_parse_behavior_witness :
    outcomeStatus (get_sephora_products ([] : List SephoraRow)
      ⟨some "xyz", none, none, none⟩) = 500 ∧
    get_sephora_products ([] : List SephoraRow)
        ⟨none, none, none, none⟩ =
      ListOutcome.ok (runSephoraQuery [] none none 50 0)
        (runSephoraQuery [] none none 50 0).length 50 0 := by
  constructor
  · exact ((pagination_parse_behavior [] [] ⟨some "xyz", none, none, none⟩).1
      ⟨"xyz", Or.inl rfl, by decide⟩).1
  · exact ((pagination_parse_behavior [] [] ⟨none, none, none, none⟩).2
      rfl rfl).1

set_option maxRecDepth 8000 in
/-- C4: on both products endpoints the built query adds a parameterized
clause for a column exactly when its filter is truthy: the query/params
pair is characterized as the base query plus one optional equality clause
for `type`, one optional `LIKE` clause for `brand` (bound as
`%{brand}%`), and the fixed ordering/pagination tail; and the clause text
for a column occurs in the generated SQL iff that filter is present. -/
theorem filter_clause_presence :
    ∀ (pt b : Option String) (l o : Int),
      buildSephoraQuery pt b l o =
        (sephoraBaseQuery ++
          (if optTruthy pt then " AND product_type = :product_type"
           else "") ++
          (if optTruthy b then " AND brand_name LIKE :brand" else "") ++
          sephoraTailQuery,
         (if optTruthy pt then
            [("product_type", SqlParam.str (pt.getD ""))] else []) ++
         (if optTruthy b then
            [("brand", SqlParam.str ("%" ++ b.getD "" ++ "%"))] else []) ++
         [("limit", SqlParam.int l), ("offset", SqlParam.int o)]) ∧
      buildSkincareQuery pt b l o =
        (skincareBaseQuery ++
          (if optTruthy pt then " AND product_type = :product_type"
           else "") ++
          (if optTruthy b then " AND brand LIKE :brand" else "") ++
          skincareTailQuery,
         (if optTruthy pt then
            [("product_type", SqlParam.str (pt.getD ""))] else []) ++
         (if optTruthy b then
            [("brand", SqlParam.str ("%" ++ b.getD "" ++ "%"))] else []) ++
         [("limit", SqlParam.int l), ("offset", SqlParam.int o)]) ∧
      occursIn (buildSephoraQuery pt b l o).1
        " AND product_type = :product_type" = optTruthy pt ∧
      occursIn (buildSephoraQuery pt b l o).1
        " AND brand_name LIKE :brand" = optTruthy b ∧
      occursIn (buildSkincareQuery pt b l o).1
        " AND product_type = :product_type" = optTruthy pt ∧
      occursIn (buildSkincareQuery pt b l o).1
        " AND brand LIKE :brand" = optTruthy b := by
  intro pt b l o
  cases hpt : optTruthy pt <;> cases hb : optTruthy b <;>
    refine ⟨?_, ?_, ?_, ?_, ?_, ?_⟩ <;>
    simp only [buildSephoraQuery, buildSkincareQuery, hpt, hb,
      Bool.false_eq_true, if_false, if_true, List.nil_append,
      List.append_assoc, String.append_assoc] <;>
    first
      | rfl
      | decide

/-- C10: supplying an empty string for the `type` or `brand` parameter is
indistinguishable from omitting it — Python truthiness treats `""` as
absent — so the built query/params and the executed result set are
identical to the unfiltered ones, on both products endpoints. -/
theorem empty_string_filter_is_absent :
    ∀ (x : Option String) (l o : Int) (dbS : List SephoraRow)
      (dbK : List SkincareRow),
      buildSephoraQuery (some "") x l o = buildSephoraQuery none x l o ∧
      buildSephoraQuery x (some "") l o = buildSephoraQuery x none l o ∧
      buildSkincareQuery (some "") x l o = buildSkincareQuery none x l o ∧
      buildSkincareQuery x (some "") l o = buildSkincareQuery x none l o ∧
      runSephoraQuery dbS (some "") x l o = runSephoraQuery dbS none x l o ∧
      runSephoraQuery dbS x (some "") l o = runSephoraQuery dbS x none l o ∧
      runSkincareQuery dbK (some "") x l o =
        runSkincareQuery dbK none x l o ∧
      runSkincareQuery dbK x (some "") l o =
        runSkincareQuery dbK x none l o := by
  intro x l o dbS dbK
  refine ⟨rfl, ?_, rfl, ?_, rfl, ?_, rfl, ?_⟩ <;>
    cases x <;> rfl

/-- C5: the comparison endpoint's category mapping is total and
single-valued — each of the six fine-grained skincare categories maps to
`Skincare`, every other category passes through unchanged — and the inner
join keeps every category present on both grouped sides after mapping. -/
theorem category_mapping_total :
    (∀ c ∈ skincareFineCategories, mapCategory c = "Skincare") ∧
    (∀ c : String, c ∉ skincareFineCategories → mapCategory c = c) ∧
    (∀ (dbS : List SephoraRow) (dbK : List SkincareRow) (c : String),
      c ∈ sephoraTypeGroups dbS → c ∈ skincareMappedGroups dbK →
      c ∈ comparisonCategories dbS dbK) := by
  refine ⟨?_, ?_, ?_⟩
  · intro c hc
    simp [mapCategory, hc]
  · intro c hc
    simp [mapCategory, hc]
  · intro dbS dbK c hs hk
    simp only [comparisonCategories, List.mem_filter]
    exact ⟨hs, by simp [hk]⟩

/-- C5 witness: `Moisturizer` maps to `Skincare`, `Hair` passes through,
and on one-row tables whose categories agree after mapping, the category
appears in the joined output. -/
theorem category_mapping_total_witness :
    mapCategory "Moisturizer" = "Skincare" ∧
    mapCategory "Hair" = "Hair" ∧
    "Skincare" ∈ comparisonCategories
      [⟨"p1", "n1", "b1", "Skincare", 10, 4, 0, 0, false, false⟩]
      [⟨"b2", "n2", "Cleanser", 8, 4, 0, 0, false, false⟩] := by
  refine ⟨?_, ?_, ?_⟩
  · exact category_mapping_total.1 "Moisturizer" (by decide)
  · exact category_mapping_total.2.1 "Hair" (by decide)
  · exact category_mapping_total.2.2
      [⟨"p1", "n1", "b1", "Skincare", 10, 4, 0, 0, false, false⟩]
      [⟨"b2", "n2", "Cleanser", 8, 4, 0, 0, false, false⟩]
      "Skincare" (by decide) (by decide)

/-- C7: the API pagination loop accumulates the normalized records of
every page up to (excluding) the first page that stops it — a page with
zero products or a fatal connection failure — skipping pages that time
out, fail with an HTTP error, or fail to parse; and it always returns
the accumulated records rather than propagating an exception. -/
theorem api_pagination_loop :
    ∀ rs : List PageResult,
      extract_from_api rs =
        ((rs.takeWhile (fun r => !pageStops r)).map pageRecords).flatten := by
  intro rs
  induction rs with
  | nil => rfl
  | cons r rest ih =>
    cases r with
    | success ps =>
      cases ps with
      | nil => rfl
      | cons p ps' =>
        simp [extract_from_api, pageStops, pageRecords, List.takeWhile, ih]
    | timeout =>
      simp [extract_from_api, pageStops, pageRecords, List.takeWhile, ih]
    | httpError m =>
      simp [extract_from_api, pageStops, pageRecords, List.takeWhile, ih]
    | requestError m => rfl
    | parseError m =>
      simp [extract_from_api, pageStops, pageRecords, List.takeWhile, ih]

/-- C8: the shared save helper writes a timestamped CSV under the
raw-data directory iff the extraction result is non-empty; an empty
result writes nothing. -/
theorem save_raw_iff_nonempty :
    ∀ {ρ : Type} (name : String) (df : List ρ) (ts : String),
      (df = [] → save_raw name df ts = none) ∧
      (df ≠ [] →
        save_raw name df ts =
          some (RAW_DIR ++ "/" ++ name ++ "_" ++ ts ++ ".csv", df)) := by
  intro ρ name df ts
  constructor
  · intro h
    simp [save_raw, h]
  · intro h
    simp [save_raw, h]

/-- C8 witness: no file for an empty frame, the timestamped path under
`data/raw` for a one-row frame. -/
theorem save_raw_iff_nonempty_witness :
    save_raw "cosing" ([] : List Nat) "20240101_000000" = none ∧
    save_raw "cosing" [7] "20240101_000000" =
      some ("data/raw/cosing_20240101_000000.csv", [7]) := by
  constructor
  · exact (save_raw_iff_nonempty "cosing" ([] : List Nat)
      "20240101_000000").1 rfl
  · have h := (save_raw_iff_nonempty "cosing" [7] "20240101_000000").2
      (by simp)
    rw [h]
    rfl

/-! ### Pagination stability lemmas -/

theorem pages_concat {α : Type} (s : List α) (N : Nat) :
    s.take N ++ (s.drop N).take N = s.take (2 * N) := by
  rw [two_mul, List.take_add]

theorem pages_disjoint {α : Type} {s : List α} (h : s.Nodup) (N : Nat) :
    (s.take N).Disjoint ((s.drop N).take N) := by
  intro a h0 h1
  exact (List.disjoint_take_drop h (le_refl N)) h0 (List.take_subset _ _ h1)

/-- A row duplicated in a table to exercise pagination on ties. -/
def dupRow : SephoraRow :=
  ⟨"p1", "Name", "Brand", "Skincare", 10, 4, 0, 0, false, false⟩

/-- A two-row table holding the same row twice (the skincare catalog has
no uniqueness guarantee, so duplicate rows are a reachable table state). -/
def dupDb : List SephoraRow := [dupRow, dupRow]

/-- A second, distinct row for the witness table. -/
def otherRow : SephoraRow :=
  ⟨"p2", "Other", "Alpha", "Hair", 5, 3, 0, 0, false, false⟩

/-- C6 counterexample: on a table holding the same row twice, page
offset 0 / limit 1 and page offset 1 / limit 1 each return that row, so
the two requested result sets are not disjoint (the concatenation
property itself still holds). -/
theorem pagination_disjoint_counterexample :
    runSephoraQuery dupDb none none 1 0 = [dupRow] ∧
    runSephoraQuery dupDb none none 1 1 = [dupRow] ∧
    ¬ (runSephoraQuery dupDb none none 1 0).Disjoint
        (runSephoraQuery dupDb none none 1 1) := by
  refine ⟨by decide, by decide, ?_⟩
  intro h
  have h1 : dupRow ∈ runSephoraQuery dupDb none none 1 0 := by decide
  have h2 : dupRow ∈ runSephoraQuery dupDb none none 1 1 := by decide
  exact h h1 h2

/-- C6 (amended): list-endpoint results are ordered by brand then product
name ascending, and for every table, filters, and page size N the page at
offset 0 concatenated with the page at offset N equals the page of size
2N at offset 0; the two pages are moreover disjoint provided the table
holds no duplicate rows (with a duplicated row they can share that
row). -/
theorem pagination_stability :
    ∀ (dbS : List SephoraRow) (dbK : List SkincareRow)
      (pt b : Option String) (N : Nat),
      runSephoraQuery dbS pt b (N : Int) 0 ++
          runSephoraQuery dbS pt b (N : Int) (N : Int) =
        runSephoraQuery dbS pt b ((2 * N : Nat) : Int) 0 ∧
      List.Sorted (rowLe sephoraKey)
        (runSephoraQuery dbS pt b ((2 * N : Nat) : Int) 0) ∧
      (dbS.Nodup →
        (runSephoraQuery dbS pt b (N : Int) 0).Disjoint
          (runSephoraQuery dbS pt b (N : Int) (N : Int))) ∧
      runSkincareQuery dbK pt b (N : Int) 0 ++
          runSkincareQuery dbK pt b (N : Int) (N : Int) =
        runSkincareQuery dbK pt b ((2 * N : Nat) : Int) 0 ∧
      List.Sorted (rowLe skincareKey)
        (runSkincareQuery dbK pt b ((2 * N : Nat) : Int) 0) ∧
      (dbK.Nodup →
        (runSkincareQuery dbK pt b (N : Int) 0).Disjoint
          (runSkincareQuery dbK pt b (N : Int) (N : Int))) := by
  intro dbS dbK pt b N
  simp only [runSephoraQuery, runSkincareQuery, Int.toNat_natCast,
    Int.toNat_zero, List.drop_zero]
  refine ⟨pages_concat _ N, ?_, ?_, pages_concat _ N, ?_, ?_⟩
  · exact ((List.sorted_insertionSort (rowLe sephoraKey) _).sublist
      (List.take_sublist _ _))
  · intro hnd
    exact pages_disjoint
      (((List.perm_insertionSort (rowLe sephoraKey) _).symm).nodup
        (hnd.filter _)) N
  · exact ((List.sorted_insertionSort (rowLe skincareKey) _).sublist
      (List.take_sublist _ _))
  · intro hnd
    exact pages_disjoint
      (((List.perm_insertionSort (rowLe skincareKey) _).symm).nodup
        (hnd.filter _)) N

/-- C6 witness: the amended statement instantiated on a concrete two-row
table without duplicates, N = 1, discharging the no-duplicate
hypothesis. -/
theorem pagination_stability_witness :
    runSephoraQuery [dupRow, otherRow] none none 1 0 ++
        runSephoraQuery [dupRow, otherRow] none none 1 1 =
      runSephoraQuery [dupRow, otherRow] none none 2 0 ∧
    (runSephoraQuery [dupRow, otherRow] none none 1 0).Disjoint
      (runSephoraQuery [dupRow, otherRow] none none 1 1) := by
  have h := pagination_stability [dupRow, otherRow] [] none none 1
  exact ⟨h.1, h.2.2.1 (by decide)⟩
